import Mathlib

/-!
Shallow embedding of `reactome2py/utils.py`, a client-side convenience layer
over the Reactome web services.  Every public function of the module issues at
most one HTTP request of its own, checks the status code, and either parses a
trivial format or passes the payload through.

Modelling conventions:
* A string is a Lean `String`; the Python primitives used by the module
  (`in`, `str.replace`, `str.split`, `str.splitlines`, `str.strip`) are
  defined below on `List Char` by structural recursion so that every
  definition evaluates inside the kernel.
* The network is an explicit parameter: a `Transport β` value is the outcome
  of the single HTTP request a function performs, where `β` is the part of the
  response body the function actually consumes (raw text for `ehld_stids`,
  the tar member names for `sbgn_stids`, the per-member `readlines` output for
  `gene_mappings`, and the JSON payload for the remaining functions).
* Each function returns a `Call α`: the URL of the outgoing request it built,
  the lines it printed, and a `PyResult α` describing how it finished
  (returned a value, fell off the end returning None, or raised).
* In each Python function the `try` block catches only `ConnectionError` and
  prints it; execution then continues to `response.status_code` with the
  local variable `response` never assigned, which raises `NameError`.  The
  embedding records that path as `PyResult.exn nameErrorMsg`.
-/

namespace Reactome

/-- How a Python function call finishes: an explicit `return` of a value, an
implicit `return None` after falling off the end of the function body, or an
unhandled exception. -/
inductive PyResult (α : Type) where
  | ret (a : α)
  | retNone
  | exn (msg : String)
  deriving DecidableEq, Repr

/-- The response to one HTTP request, already narrowed to the body component
the consuming function reads. -/
structure HttpResponse (β : Type) where
  status : Nat
  body : β
  deriving DecidableEq, Repr

/-- Outcome of issuing one HTTP request: either a response arrived, or the
connection could not be established (`requests.exceptions.ConnectionError`,
carrying a printable message). -/
inductive Transport (β : Type) where
  | success (resp : HttpResponse β)
  | connError (msg : String)
  deriving DecidableEq, Repr

/-- One completed function call: the URL of the outgoing request the function
constructed, everything it printed (in order), and how it finished. -/
structure Call (α : Type) where
  url : String
  printed : List String
  result : PyResult α
  deriving DecidableEq, Repr

/-- The `NameError` raised when, after a caught and printed connection error,
control reaches `response.status_code` with `response` never assigned. -/
def nameErrorMsg : String := "NameError: name 'response' is not defined"

/-- The `IndexError` raised by out-of-range list indexing. -/
def indexErrorMsg : String := "IndexError: list index out of range"

/-- The `TypeError` raised by `set(None)` when `sbgn_stids` feeds the `None`
returned by a failed `ehld_stids` call into a set constructor. -/
def typeErrorMsg : String := "TypeError: 'NoneType' object is not iterable"

/-- The diagnostic printed on a non-200 status:
`'Status code returned a value of %s' % response.status_code`. -/
def statusMsg (status : Nat) : String :=
  "Status code returned a value of " ++ toString status

/-- Python substring membership `sub in s`. -/
def pyContains (sub s : String) : Bool :=
  decide (sub.data <:+: s.data)

/-- One step of Python `str.replace`: scan left to right and replace each
non-overlapping occurrence of `old` by `new`.  Structural recursion on a fuel
argument (initialised to the length of the subject) keeps the definition
kernel-reducible; the fuel is sufficient because each step consumes at least
one character. -/
def pyReplaceAux (old new : List Char) : Nat → List Char → List Char
  | 0, s => s
  | _ + 1, [] => []
  | n + 1, c :: rest =>
    if old ≠ [] ∧ old.isPrefixOf (c :: rest) then
      new ++ pyReplaceAux old new n ((c :: rest).drop old.length)
    else
      c :: pyReplaceAux old new n rest

/-- Python `s.replace(old, new)` for a non-empty `old`: every non-overlapping
occurrence of `old` is replaced by `new`, scanning left to right.  (Python
treats an empty `old` specially, inserting `new` at every position; the
module only ever calls `replace` with the non-empty targets `"R-HSA-"` and
`".sbgn"`, and for an empty `old` this model returns `s` unchanged, which
agrees with Python when `new` is the empty string as it always is here.) -/
def pyReplace (s old new : String) : String :=
  String.mk (pyReplaceAux old.data new.data s.data.length s.data)

/-- Helper for Python `str.splitlines`: split at each newline character,
producing no trailing empty line for a trailing newline. -/
def pySplitlinesAux : List Char → List Char → List (List Char)
  | [], [] => []
  | [], acc => [acc.reverse]
  | c :: rest, acc =>
    if c = '\n' then acc.reverse :: pySplitlinesAux rest []
    else pySplitlinesAux rest (c :: acc)

/-- Python `s.splitlines()` restricted to `\n` separators (the summary file
fetched by `ehld_stids` is newline-delimited text). -/
def pySplitlines (s : String) : List String :=
  (pySplitlinesAux s.data []).map String.mk

/-- Helper for Python `s.split('\t')`. -/
def pySplitTabAux : List Char → List Char → List (List Char)
  | [], acc => [acc.reverse]
  | c :: rest, acc =>
    if c = '\t' then acc.reverse :: pySplitTabAux rest []
    else pySplitTabAux rest (c :: acc)

/-- Python `s.split('\t')`: always at least one field; an empty string yields
`[""]`; adjacent tabs yield empty fields. -/
def pySplitTab (s : String) : List String :=
  (pySplitTabAux s.data []).map String.mk

/-- The ASCII whitespace characters removed by Python `str.strip()` (Python
also strips the rarer Unicode spaces; the data handled by this module is
ASCII). -/
def pyIsSpace (c : Char) : Bool :=
  c = ' ' || c = '\t' || c = '\n' || c = '\r' || c = '\x0b' || c = '\x0c'

/-- Python `s.strip()` on the character list: drop whitespace from the front,
then from the back. -/
def pyStripList (l : List Char) : List Char :=
  ((l.dropWhile pyIsSpace).reverse.dropWhile pyIsSpace).reverse

/-- Python `s.strip()`. -/
def pyStrip (s : String) : String :=
  String.mk (pyStripList s.data)

/-- A string with no leading and no trailing whitespace. -/
def isTrimmed (s : String) : Bool :=
  s.data.head?.all (fun c => ! pyIsSpace c) &&
    s.data.getLast?.all (fun c => ! pyIsSpace c)

/-- JSON payloads are passed through verbatim by the module and never
inspected; the model carries them as the raw response body. -/
abbrev Json := String

/-- The fixed URL fetched by `ehld_stids`. -/
def ehldUrl : String := "https://reactome.org/download/current/ehld/svgsummary.txt"

/-- The fixed URL fetched by `sbgn_stids`. -/
def sbgnUrl : String := "https://reactome.org/download/current/homo_sapiens.sbgn.tar.gz"

/-- The fixed URL fetched by `gene_mappings`. -/
def gmtUrl : String := "https://reactome.org/download/current/ReactomePathways.gmt.zip"

/-- `ehld_stids()`: GET the plaintext summary file; on 200 split the body
into lines and keep the lines containing `"R-"`; on any other status print
the status diagnostic and return None.  A connection error is caught and
printed, after which the read of the unassigned `response` raises
`NameError`. -/
def ehld_stids (t : Transport String) : Call (List String) :=
  match t with
  | .connError e => ⟨ehldUrl, [e], .exn nameErrorMsg⟩
  | .success resp =>
    if resp.status == 200 then
      let content_list := pySplitlines resp.body
      let st_ids := content_list.filter (fun stId => pyContains "R-" stId)
      ⟨ehldUrl, [], .ret st_ids⟩
    else
      ⟨ehldUrl, [statusMsg resp.status], .retNone⟩

/-- The two requests `sbgn_stids` depends on: its own GET for the tar archive
(body: the member names listed by `tarfile.getnames`), and the GET performed
by the nested `ehld_stids()` call. -/
structure SbgnEnv where
  tarT : Transport (List String)
  ehldT : Transport String
  deriving DecidableEq, Repr

/-- `sbgn_stids()`: GET the tar archive; on 200 list the member names, call
`ehld_stids()`, remove the substring `".sbgn"` from each member name, and
return `list(set(sbgns) - set(ehlds))`.  Python leaves the iteration order of
a set unspecified; the model fixes the first-occurrence order, and every
claim proved about this function is order-independent.  When the nested call
returns None (after its own non-200 status), `set(ehlds)` raises `TypeError`;
when it raises, the exception propagates. -/
def sbgn_stids (env : SbgnEnv) : Call (List String) :=
  match env.tarT with
  | .connError e => ⟨sbgnUrl, [e], .exn nameErrorMsg⟩
  | .success resp =>
    if resp.status == 200 then
      let file_names := resp.body
      let inner := ehld_stids env.ehldT
      match inner.result with
      | .ret ehlds =>
        let sbgns := file_names.map (fun f => pyReplace f ".sbgn" "")
        let sbgn_only := (sbgns.filter (fun s => ! ehlds.contains s)).dedup
        ⟨sbgnUrl, inner.printed, .ret sbgn_only⟩
      | .retNone => ⟨sbgnUrl, inner.printed, .exn typeErrorMsg⟩
      | .exn m => ⟨sbgnUrl, inner.printed, .exn m⟩
    else
      ⟨sbgnUrl, [statusMsg resp.status], .retNone⟩

/-- One pathway-to-genes record built by `gene_mappings`:
`dict(name=..., stId=..., genes=...)`. -/
structure GeneMap where
  name : String
  stId : String
  genes : List String
  deriving DecidableEq, Repr

/-- The loop body of `gene_mappings` over the tab-split lines: strip every
field of the line, then read field 0 and field 1 and slice the rest
(`gm[i][2:len(gm[i])]`).  Reading field 1 of a line with fewer than two
fields raises `IndexError`, which aborts the loop and discards the records
accumulated so far. -/
def buildRelations : List (List String) → Except String (List GeneMap)
  | [] => .ok []
  | fields :: rest =>
    match fields.map pyStrip with
    | f0 :: f1 :: tail =>
      match buildRelations rest with
      | .ok rs => .ok (⟨f0, f1, tail⟩ :: rs)
      | .error m => .error m
    | _ => .error indexErrorMsg

/-- `gene_mappings()`: GET the zipped GMT file; on 200 take the lines of the
first archive member (`list(_yield_zip(response))[0]` raises `IndexError`
when the archive has no members), split each decoded line on tabs
(`_read_ziplines`), and run the record-building loop.  The transport body is
the `readlines` output of each zip member (lines keep their trailing newline
character); UTF-8 decoding is modelled as the identity. -/
def gene_mappings (t : Transport (List (List String))) : Call (List GeneMap) :=
  match t with
  | .connError e => ⟨gmtUrl, [e], .exn nameErrorMsg⟩
  | .success resp =>
    if resp.status == 200 then
      match resp.body with
      | [] => ⟨gmtUrl, [], .exn indexErrorMsg⟩
      | firstMember :: _ =>
        let gm := firstMember.map pySplitTab
        match buildRelations gm with
        | .ok relations => ⟨gmtUrl, [], .ret relations⟩
        | .error m => ⟨gmtUrl, [], .exn m⟩
    else
      ⟨gmtUrl, [statusMsg resp.status], .retNone⟩

/-- The shared tail of every JSON-returning function in the module: issue the
one request, print a caught connection error and then raise `NameError` on
the unassigned `response`, return `response.json()` on 200, and print the
status diagnostic and return None otherwise. -/
def requestJson (url : String) (t : Transport Json) : Call Json :=
  match t with
  | .connError e => ⟨url, [e], .exn nameErrorMsg⟩
  | .success resp =>
    if resp.status == 200 then ⟨url, [], .ret resp.body⟩
    else ⟨url, [statusMsg resp.status], .retNone⟩

/-- The URL built by `pathway_fi`: if the pattern occurs in `stId`, the code
reassigns `stId = stId.replace(pattern, "")` before interpolating it into the
endpoint path. -/
def pathwayFiUrl (stId pattern : String) : String :=
  let stId := if pyContains pattern stId then pyReplace stId pattern "" else stId
  "http://cpws.reactome.org/caBigR3WebApp2018/FIService/network/convertPathwayToFIs/" ++ stId

/-- The URL built by `pathway_boolean_network` (same identifier handling as
`pathway_fi`). -/
def pathwayBooleanNetworkUrl (stId pattern : String) : String :=
  let stId := if pyContains pattern stId then pyReplace stId pattern "" else stId
  "http://cpws.reactome.org/caBigR3WebApp2018/FIService/network/convertPathwayToBooleanNetwork/" ++ stId

/-- The URL built by `pathway_factor_graph` (same identifier handling as
`pathway_fi`). -/
def pathwayFactorGraphUrl (stId pattern : String) : String :=
  let stId := if pyContains pattern stId then pyReplace stId pattern "" else stId
  "http://cpws.reactome.org/caBigR3WebApp2018/FIService/network/convertPathwayToFactorGraph/" ++ stId

/-- `pathway_fi(stId, pattern)`: GET the FI-network conversion endpoint with
the (possibly pattern-stripped) identifier; return the JSON body on 200. -/
def pathway_fi (stId : String := "R-HSA-177929") (pattern : String := "R-HSA-")
    (t : Transport Json) : Call Json :=
  requestJson (pathwayFiUrl stId pattern) t

/-- `pathway_boolean_network(stId, pattern)`: GET the boolean-network
conversion endpoint; return the JSON body on 200. -/
def pathway_boolean_network (stId : String := "R-HSA-177929")
    (pattern : String := "R-HSA-") (t : Transport Json) : Call Json :=
  requestJson (pathwayBooleanNetworkUrl stId pattern) t

/-- `pathway_factor_graph(stId, pattern)`: POST to the factor-graph
conversion endpoint (empty body); return the JSON body on 200. -/
def pathway_factor_graph (stId : String := "R-HSA-177929")
    (pattern : String := "R-HSA-") (t : Transport Json) : Call Json :=
  requestJson (pathwayFactorGraphUrl stId pattern) t

/-- The URL built by `drug_data_source`. -/
def drugDataSourceUrl (source : String) : String :=
  "http://cpws.reactome.org/caBigR3WebApp2018/FIService/drug/listDrugs/" ++ source

/-- `drug_data_source(source)`: GET the drug list for a source; return the
JSON body on 200. -/
def drug_data_source (source : String := "drugcentral")
    (t : Transport Json) : Call Json :=
  requestJson (drugDataSourceUrl source) t

/-- The URL built by `drug_target_interactions`. -/
def drugTargetInteractionsUrl (source : String) : String :=
  "http://cpws.reactome.org/caBigR3WebApp2018/FIService/drug/queryDrugTargetInteractions/" ++ source

set_option linter.unusedVariables false in
/-- `drug_target_interactions(ids, source)`: POST the newline-separated gene
symbols as the raw request body (the body does not influence the constructed
URL or the status handling); return the JSON body on 200. -/
def drug_target_interactions (ids : String := "EGFR\nESR1\nBRAF")
    (source : String := "drugcentral") (t : Transport Json) : Call Json :=
  requestJson (drugTargetInteractionsUrl source) t

/-- The URL built by `drug_target_interaction_pe_in_diagram`:
`ids = "/".join([pdId, peId])` interpolated after the source. -/
def drugPeInDiagramUrl (source pdId peId : String) : String :=
  let ids := pdId ++ "/" ++ peId
  "http://cpws.reactome.org/caBigR3WebApp2018/FIService/drug/queryInteractionsForPEInDiagram/"
    ++ source ++ "/" ++ ids

/-- `drug_target_interaction_pe_in_diagram(source, pdId, peId)`: GET with the
compound path; return the JSON body on 200. -/
def drug_target_interaction_pe_in_diagram (source : String := "drugcentral")
    (pdId : String := "507988") (peId : String := "1220578")
    (t : Transport Json) : Call Json :=
  requestJson (drugPeInDiagramUrl source pdId peId) t

/-- The URL built by `drug_target_interaction_diagram`. -/
def drugDiagramUrl (source pdId : String) : String :=
  "http://cpws.reactome.org/caBigR3WebApp2018/FIService/drug/queryInteractionsForDiagram/"
    ++ source ++ "/" ++ pdId

/-- `drug_target_interaction_diagram(source, pdId)`: GET with the diagram
path; return the JSON body on 200. -/
def drug_target_interaction_diagram (source : String := "drugcentral")
    (pdId : String := "507988") (t : Transport Json) : Call Json :=
  requestJson (drugDiagramUrl source pdId) t

/-- The per-line record contract stated by the specification for
`gene_mappings`, written independently of the loop in the source: split the
line on tabs, trim every field, take field 0 as the name, field 1 as the
identifier, and all remaining fields as the genes. -/
def specRecord (line : String) : GeneMap :=
  let fs := (pySplitTab line).map pyStrip
  { name := fs.getD 0 "", stId := fs.getD 1 "", genes := fs.drop 2 }

/- ### Helper lemmas about the embedded string primitives -/

/-- Rebuilding a string from its character list is the identity. -/
theorem mk_data (s : String) : String.mk s.data = s := rfl

/-- `str.replace` leaves a string unchanged when the target does not occur in
it. -/
theorem replaceAux_of_no_occurrence (old new : List Char) :
    ∀ (n : Nat) (l : List Char), ¬ old <:+: l → pyReplaceAux old new n l = l
  | 0, _, _ => rfl
  | _ + 1, [], _ => rfl
  | n + 1, c :: rest, h => by
    simp only [pyReplaceAux]
    have hguard : ¬ (old ≠ [] ∧ old.isPrefixOf (c :: rest) = true) := by
      rintro ⟨-, hpre⟩
      exact h (List.isPrefixOf_iff_prefix.mp hpre).isInfix
    rw [if_neg hguard,
      replaceAux_of_no_occurrence old new n rest (fun hi => h (List.infix_cons hi))]

/-- String-level version: if `old` is not a substring of `s` then
`s.replace(old, new)` is `s`. -/
theorem pyReplace_of_not_contains {s old : String} (new : String)
    (h : pyContains old s = false) : pyReplace s old new = s := by
  have hni : ¬ old.data <:+: s.data := of_decide_eq_false h
  unfold pyReplace
  rw [replaceAux_of_no_occurrence old.data new.data s.data.length s.data hni]

/-- The first character surviving `dropWhile p` does not satisfy `p`. -/
theorem head?_dropWhile_not (p : Char → Bool) :
    ∀ (l : List Char) (c : Char), (l.dropWhile p).head? = some c → p c = false
  | [], c, h => by simp [List.dropWhile] at h
  | a :: l, c, h => by
    rw [List.dropWhile_cons] at h
    by_cases hpa : p a = true
    · rw [if_pos hpa] at h
      exact head?_dropWhile_not p l c h
    · rw [if_neg hpa] at h
      simp only [List.head?_cons, Option.some.injEq] at h
      subst h
      exact eq_false_of_ne_true hpa

/-- `dropWhile` only removes elements from the front, so a nonempty result
keeps the last element of the input. -/
theorem getLast?_dropWhile (p : Char → Bool) (l : List Char) (c : Char)
    (h : (l.dropWhile p).getLast? = some c) : l.getLast? = some c := by
  obtain ⟨t, ht⟩ := List.dropWhile_suffix (l := l) p
  rw [← ht, List.getLast?_append, h]
  rfl

/-- Python `strip()` produces a string with neither leading nor trailing
whitespace. -/
theorem isTrimmed_pyStrip (s : String) : isTrimmed (pyStrip s) = true := by
  unfold isTrimmed pyStrip pyStripList
  set y := s.data.dropWhile pyIsSpace with hy
  set z := y.reverse.dropWhile pyIsSpace with hz
  rw [Bool.and_eq_true]
  constructor
  · show (z.reverse.head?.all fun c => ! pyIsSpace c) = true
    rw [List.head?_reverse]
    cases hzl : z.getLast? with
    | none => rfl
    | some c =>
      have h1 : y.reverse.getLast? = some c := getLast?_dropWhile _ _ _ hzl
      rw [List.getLast?_reverse] at h1
      have h2 : pyIsSpace c = false := head?_dropWhile_not pyIsSpace s.data c h1
      simp [Option.all, h2]
  · show (z.reverse.getLast?.all fun c => ! pyIsSpace c) = true
    rw [List.getLast?_reverse]
    cases hh : z.head? with
    | none => rfl
    | some c =>
      have h2 : pyIsSpace c = false := head?_dropWhile_not pyIsSpace y.reverse c hh
      simp [Option.all, h2]

/-- Splitting a tab-free character list produces a single field. -/
theorem pySplitTabAux_no_tab :
    ∀ (l acc : List Char), '\t' ∉ l → pySplitTabAux l acc = [acc.reverse ++ l]
  | [], acc, _ => by simp [pySplitTabAux]
  | c :: rest, acc, h => by
    have hc : ¬ c = '\t' := fun he => h (he ▸ List.mem_cons_self c rest)
    simp only [pySplitTabAux]
    rw [if_neg hc,
      pySplitTabAux_no_tab rest (c :: acc) (fun hm => h (List.mem_cons_of_mem c hm))]
    simp

/-- Python `split('\t')` on a line with no tab yields the whole line as the
single field. -/
theorem pySplitTab_no_tab (s : String) (h : '\t' ∉ s.data) : pySplitTab s = [s] := by
  unfold pySplitTab
  rw [pySplitTabAux_no_tab s.data [] h]
  simp [mk_data]

/- ### Helper lemmas about the `gene_mappings` loop -/

/-- If the record-building loop finishes without raising, every processed
line had at least two tab-separated fields. -/
theorem buildRelations_ok_length :
    ∀ (gm : List (List String)) (rs : List GeneMap),
      buildRelations gm = .ok rs → ∀ fields ∈ gm, 2 ≤ fields.length
  | [], _, _, fields, hm => absurd hm (List.not_mem_nil fields)
  | f₀ :: rest, rs, h, fields, hm => by
    rw [buildRelations] at h
    rcases List.mem_cons.mp hm with he | hm₂
    · subst he
      cases hfs : fields.map pyStrip with
      | nil => rw [hfs] at h; exact absurd h (by simp)
      | cons g0 tl =>
        cases tl with
        | nil => rw [hfs] at h; exact absurd h (by simp)
        | cons g1 tail =>
          have hlen := congrArg List.length hfs
          simp only [List.length_map, List.length_cons] at hlen
          omega
    · cases hfs : f₀.map pyStrip with
      | nil => rw [hfs] at h; exact absurd h (by simp)
      | cons g0 tl =>
        cases tl with
        | nil => rw [hfs] at h; exact absurd h (by simp)
        | cons g1 tail =>
          rw [hfs] at h
          cases hrest : buildRelations rest with
          | error m => rw [hrest] at h; exact absurd h (by simp)
          | ok rs₂ => exact buildRelations_ok_length rest rs₂ hrest fields hm₂

/-- When every line has at least two fields, the loop returns exactly the
specification record for each line, in line order. -/
theorem buildRelations_ok_of_min_fields :
    ∀ (lines : List String),
      (∀ l ∈ lines, 2 ≤ (pySplitTab l).length) →
      buildRelations (lines.map pySplitTab) = .ok (lines.map specRecord)
  | [], _ => rfl
  | l :: rest, h => by
    have h2 : 2 ≤ (pySplitTab l).length := h l (List.mem_cons_self l rest)
    have hrest := buildRelations_ok_of_min_fields rest
      (fun x hx => h x (List.mem_cons_of_mem l hx))
    cases hfs : (pySplitTab l).map pyStrip with
    | nil =>
      have hlen := congrArg List.length hfs
      simp only [List.length_map, List.length_nil] at hlen
      omega
    | cons g0 tl =>
      cases tl with
      | nil =>
        have hlen := congrArg List.length hfs
        simp only [List.length_map, List.length_cons, List.length_nil] at hlen
        omega
      | cons g1 tail =>
        simp only [List.map_cons, buildRelations, hfs, hrest]
        have hrec : specRecord l = ⟨g0, g1, tail⟩ := by
          simp [specRecord, hfs]
        rw [hrec]

/-- If some line has fewer than two fields, the loop raises `IndexError`
(whichever records were accumulated before the bad line are discarded). -/
theorem buildRelations_error_of_short :
    ∀ (gm : List (List String)), (∃ fields ∈ gm, fields.length < 2) →
      buildRelations gm = .error indexErrorMsg
  | [], h => absurd h (by simp)
  | f₀ :: rest, h => by
    rcases h with ⟨fields, hm, hlen⟩
    rcases List.mem_cons.mp hm with he | hm₂
    · subst he
      cases fields with
      | nil => rfl
      | cons a tl =>
        cases tl with
        | nil => rfl
        | cons b tl₂ => exact absurd hlen (by simp [List.length_cons])
    · have hrest := buildRelations_error_of_short rest ⟨fields, hm₂, hlen⟩
      cases hfs : f₀.map pyStrip with
      | nil => simp only [buildRelations, hfs]
      | cons g0 tl =>
        cases tl with
        | nil => simp only [buildRelations, hfs]
        | cons g1 tail => simp only [buildRelations, hfs, hrest]

/-- Every field of every record produced by the loop has been passed through
`strip()`, hence carries no leading or trailing whitespace. -/
theorem buildRelations_ok_trimmed :
    ∀ (gm : List (List String)) (rs : List GeneMap), buildRelations gm = .ok rs →
      ∀ r ∈ rs, isTrimmed r.name = true ∧ isTrimmed r.stId = true ∧
        ∀ g ∈ r.genes, isTrimmed g = true
  | [], rs, h, r, hr => by
    simp only [buildRelations, Except.ok.injEq] at h
    subst h
    exact absurd hr (List.not_mem_nil r)
  | f₀ :: rest, rs, h, r, hr => by
    rw [buildRelations] at h
    cases hfs : f₀.map pyStrip with
    | nil => rw [hfs] at h; exact absurd h (by simp)
    | cons g0 tl =>
      cases tl with
      | nil => rw [hfs] at h; exact absurd h (by simp)
      | cons g1 tail =>
        rw [hfs] at h
        cases hrest : buildRelations rest with
        | error m => rw [hrest] at h; exact absurd h (by simp)
        | ok rs₂ =>
          rw [hrest] at h
          simp only [Except.ok.injEq] at h
          subst h
          have htl : ∀ x ∈ g0 :: g1 :: tail, isTrimmed x = true := by
            intro x hx
            rw [← hfs] at hx
            rcases List.mem_map.mp hx with ⟨y, -, hy⟩
            rw [← hy]
            exact isTrimmed_pyStrip y
          rcases List.mem_cons.mp hr with he | hr₂
          · subst he
            refine ⟨htl g0 (by simp), htl g1 (by simp), ?_⟩
            intro g hg
            exact htl g (by simp [hg])
          · exact buildRelations_ok_trimmed rest rs₂ hrest r hr₂

/- ### Inversion lemmas for the listing fetchers -/

/-- A value returned by `ehld_stids` is exactly the `R-`-filtered line list
of a 200 response. -/
theorem ehld_stids_ret_inv (t : Transport String) (l : List String)
    (h : (ehld_stids t).result = .ret l) :
    ∃ resp, t = .success resp ∧
      l = (pySplitlines resp.body).filter (fun stId => pyContains "R-" stId) := by
  cases t with
  | connError e => exact absurd h (by simp [ehld_stids])
  | success resp =>
    refine ⟨resp, rfl, ?_⟩
    by_cases hs : (resp.status == 200) = true
    · simp only [ehld_stids, hs, if_true] at h
      simp only [PyResult.ret.injEq] at h
      exact h.symm
    · simp only [ehld_stids] at h
      rw [if_neg hs] at h
      simp at h

/-- A value returned by `sbgn_stids` is exactly the deduplicated member-name
list with `".sbgn"` removed and the `ehld_stids` identifiers subtracted. -/
theorem sbgn_stids_ret_inv (env : SbgnEnv) (l : List String)
    (h : (sbgn_stids env).result = .ret l) :
    ∃ (resp : HttpResponse (List String)) (ehlds : List String),
      env.tarT = .success resp ∧
      (ehld_stids env.ehldT).result = .ret ehlds ∧
      l = ((resp.body.map (fun f => pyReplace f ".sbgn" "")).filter
            (fun s => ! ehlds.contains s)).dedup := by
  obtain ⟨tarT, ehldT⟩ := env
  cases tarT with
  | connError e => exact absurd h (by simp [sbgn_stids])
  | success resp =>
    by_cases hs : (resp.status == 200) = true
    · simp only [sbgn_stids, hs, if_true] at h
      cases hin : (ehld_stids ehldT).result with
      | ret ehlds =>
        rw [hin] at h
        simp only [PyResult.ret.injEq] at h
        exact ⟨resp, ehlds, rfl, rfl, h.symm⟩
      | retNone => rw [hin] at h; exact absurd h (by simp)
      | exn m => rw [hin] at h; exact absurd h (by simp)
    · simp only [sbgn_stids] at h
      rw [if_neg hs] at h
      simp at h

/-- `requestJson` always records the URL it was asked to fetch. -/
theorem requestJson_url (u : String) (t : Transport Json) :
    (requestJson u t).url = u := by
  cases t with
  | connError e => rfl
  | success resp =>
    simp only [requestJson]
    split <;> rfl

/- ### Claim theorems -/

/-- C1 (amended): for each of the three pathway-conversion functions, the
identifier interpolated into the outgoing request URL is `stId` with every
non-overlapping occurrence of the pattern removed, scanning left to right
(Python `str.replace`); an identifier not containing the pattern is passed
through unchanged.  The original claim said exactly one leading occurrence is
removed, which the code refutes on identifiers containing the pattern more
than once. -/
theorem pathway_conversion_url_id_amended :
    ∀ (stId pattern : String),
      pathwayFiUrl stId pattern =
        "http://cpws.reactome.org/caBigR3WebApp2018/FIService/network/convertPathwayToFIs/"
          ++ pyReplace stId pattern "" ∧
      pathwayBooleanNetworkUrl stId pattern =
        "http://cpws.reactome.org/caBigR3WebApp2018/FIService/network/convertPathwayToBooleanNetwork/"
          ++ pyReplace stId pattern "" ∧
      pathwayFactorGraphUrl stId pattern =
        "http://cpws.reactome.org/caBigR3WebApp2018/FIService/network/convertPathwayToFactorGraph/"
          ++ pyReplace stId pattern "" ∧
      (pyContains pattern stId = false →
        pathwayFiUrl stId pattern =
          "http://cpws.reactome.org/caBigR3WebApp2018/FIService/network/convertPathwayToFIs/"
            ++ stId ∧
        pathwayBooleanNetworkUrl stId pattern =
          "http://cpws.reactome.org/caBigR3WebApp2018/FIService/network/convertPathwayToBooleanNetwork/"
            ++ stId ∧
        pathwayFactorGraphUrl stId pattern =
          "http://cpws.reactome.org/caBigR3WebApp2018/FIService/network/convertPathwayToFactorGraph/"
            ++ stId) := by
  intro stId pattern
  have key : (if pyContains pattern stId then pyReplace stId pattern "" else stId)
      = pyReplace stId pattern "" := by
    cases hc : pyContains pattern stId with
    | false =>
      simp only [Bool.false_eq_true, if_false]
      exact (pyReplace_of_not_contains "" hc).symm
    | true => simp
  refine ⟨?_, ?_, ?_, fun hnc => ⟨?_, ?_, ?_⟩⟩
  · simp only [pathwayFiUrl]; rw [key]
  · simp only [pathwayBooleanNetworkUrl]; rw [key]
  · simp only [pathwayFactorGraphUrl]; rw [key]
  · simp [pathwayFiUrl, hnc]
  · simp [pathwayBooleanNetworkUrl, hnc]
  · simp [pathwayFactorGraphUrl, hnc]

/-- C1 counterexample: on an identifier containing the pattern twice, the URL
uses the identifier with both occurrences removed, not with one leading
occurrence removed as the claim states. -/
theorem pathway_fi_one_leading_occurrence_cex :
    pathwayFiUrl "R-HSA-R-HSA-177929" "R-HSA-" ≠
      "http://cpws.reactome.org/caBigR3WebApp2018/FIService/network/convertPathwayToFIs/R-HSA-177929" ∧
    pathwayFiUrl "R-HSA-R-HSA-177929" "R-HSA-" =
      "http://cpws.reactome.org/caBigR3WebApp2018/FIService/network/convertPathwayToFIs/177929" := by
  exact ⟨by decide, by decide⟩

/-- C1 witness: the pass-through branch of the amended theorem at a concrete
identifier not containing the pattern. -/
theorem pathway_conversion_url_id_amended_witness :
    pathwayFiUrl "XYZ-42" "R-HSA-" =
      "http://cpws.reactome.org/caBigR3WebApp2018/FIService/network/convertPathwayToFIs/"
        ++ "XYZ-42" :=
  ((pathway_conversion_url_id_amended "XYZ-42" "R-HSA-").2.2.2 (by decide)).1

/-- C2 (amended): every identifier returned by a successful `ehld_stids` call
contains the substring `R-` (the function filters on it); for `sbgn_stids`
the code applies no such filter, so the guarantee holds only under the
assumption that every tar member name, after removal of `".sbgn"`, contains
`R-`. -/
theorem listing_identifiers_contain_R_amended :
    (∀ (t : Transport String) (l : List String),
        (ehld_stids t).result = .ret l → ∀ s ∈ l, pyContains "R-" s = true) ∧
    (∀ (names : List String) (t2 : Transport String) (l : List String),
        (sbgn_stids ⟨.success ⟨200, names⟩, t2⟩).result = .ret l →
        (∀ f ∈ names, pyContains "R-" (pyReplace f ".sbgn" "") = true) →
        ∀ s ∈ l, pyContains "R-" s = true) := by
  constructor
  · intro t l h s hs
    obtain ⟨resp, -, hl⟩ := ehld_stids_ret_inv t l h
    subst hl
    exact (List.mem_filter.mp hs).2
  · intro names t2 l h hall s hs
    obtain ⟨resp, ehlds, htar, -, hl⟩ := sbgn_stids_ret_inv _ l h
    have htar2 : Transport.success (⟨200, names⟩ : HttpResponse (List String))
        = .success resp := htar
    injection htar2 with hresp
    subst hl
    have hs3 := (List.mem_filter.mp (List.mem_dedup.mp hs)).1
    rcases List.mem_map.mp hs3 with ⟨f, hf, hfe⟩
    rw [← hfe]
    apply hall
    rw [← hresp] at hf
    exact hf

/-- C2 counterexample: a tar member name without `R-` flows through
`sbgn_stids` unfiltered, so the claimed invariant fails for `sbgn_stids`. -/
theorem sbgn_stids_R_guarantee_cex :
    (sbgn_stids ⟨.success ⟨200, ["foo"]⟩, .success ⟨200, ""⟩⟩).result = .ret ["foo"] ∧
    pyContains "R-" "foo" = false :=
  ⟨by decide, by decide⟩

/-- C2 witness: both halves of the amended theorem applied at concrete
responses. -/
theorem listing_identifiers_contain_R_witness :
    pyContains "R-" "R-HSA-1" = true ∧ pyContains "R-" "R-HSA-2" = true := by
  constructor
  · exact listing_identifiers_contain_R_amended.1 (.success ⟨200, "R-HSA-1\nnope"⟩)
      ["R-HSA-1"] (by decide) "R-HSA-1" (by decide)
  · exact listing_identifiers_contain_R_amended.2 ["R-HSA-2.sbgn"] (.success ⟨200, ""⟩)
      ["R-HSA-2"] (by decide) (by decide) "R-HSA-2" (by decide)

/-- C8: calling `pathway_fi` with `stId="R-HSA-177929"` and the default
pattern produces an outgoing GET request whose URL ends in
`convertPathwayToFIs/177929`, whatever the transport outcome. -/
theorem pathway_fi_default_url :
    ∀ (t : Transport Json),
      (pathway_fi "R-HSA-177929" "R-HSA-" t).url =
        "http://cpws.reactome.org/caBigR3WebApp2018/FIService/network/convertPathwayToFIs/177929" ∧
      List.isSuffixOf "convertPathwayToFIs/177929".data
        (pathway_fi "R-HSA-177929" "R-HSA-" t).url.data = true := by
  intro t
  have hu : (pathway_fi "R-HSA-177929" "R-HSA-" t).url
      = pathwayFiUrl "R-HSA-177929" "R-HSA-" := requestJson_url _ t
  rw [hu]
  exact ⟨by decide, by decide⟩

/-- C3: in every function of the module, a connection failure during the
function's own HTTP request is caught and its message printed, after which
execution continues to the status-code check and raises `NameError` because
`response` was never assigned; the result is the exception, not the normal
None returned on a bad status. -/
theorem connection_error_prints_then_raises_name_fault :
    ∀ (e stId pattern ids source pdId peId : String) (t2 : Transport String),
      ehld_stids (.connError e) = ⟨ehldUrl, [e], .exn nameErrorMsg⟩ ∧
      sbgn_stids ⟨.connError e, t2⟩ = ⟨sbgnUrl, [e], .exn nameErrorMsg⟩ ∧
      gene_mappings (.connError e) = ⟨gmtUrl, [e], .exn nameErrorMsg⟩ ∧
      pathway_fi stId pattern (.connError e) =
        ⟨pathwayFiUrl stId pattern, [e], .exn nameErrorMsg⟩ ∧
      pathway_boolean_network stId pattern (.connError e) =
        ⟨pathwayBooleanNetworkUrl stId pattern, [e], .exn nameErrorMsg⟩ ∧
      pathway_factor_graph stId pattern (.connError e) =
        ⟨pathwayFactorGraphUrl stId pattern, [e], .exn nameErrorMsg⟩ ∧
      drug_data_source source (.connError e) =
        ⟨drugDataSourceUrl source, [e], .exn nameErrorMsg⟩ ∧
      drug_target_interactions ids source (.connError e) =
        ⟨drugTargetInteractionsUrl source, [e], .exn nameErrorMsg⟩ ∧
      drug_target_interaction_pe_in_diagram source pdId peId (.connError e) =
        ⟨drugPeInDiagramUrl source pdId peId, [e], .exn nameErrorMsg⟩ ∧
      drug_target_interaction_diagram source pdId (.connError e) =
        ⟨drugDiagramUrl source pdId, [e], .exn nameErrorMsg⟩ :=
  fun _ _ _ _ _ _ _ _ =>
    ⟨rfl, rfl, rfl, rfl, rfl, rfl, rfl, rfl, rfl, rfl⟩

/-- C7: in every function of the module, a response with a non-2xx status
makes the function print the diagnostic carrying the numeric status code and
fall off the end returning None; no exception reaches the caller.  (The code
actually tests `== 200`, so every status other than 200 takes this branch;
the claim only asserts the non-2xx subset of that behaviour.) -/
theorem non_success_status_prints_code_and_returns_none :
    ∀ (status : Nat), status < 200 ∨ 300 ≤ status →
    ∀ (text : String) (names : List String) (members : List (List String))
      (t2 : Transport String) (body stId pattern ids source pdId peId : String),
      ehld_stids (.success ⟨status, text⟩) =
        ⟨ehldUrl, [statusMsg status], .retNone⟩ ∧
      sbgn_stids ⟨.success ⟨status, names⟩, t2⟩ =
        ⟨sbgnUrl, [statusMsg status], .retNone⟩ ∧
      gene_mappings (.success ⟨status, members⟩) =
        ⟨gmtUrl, [statusMsg status], .retNone⟩ ∧
      pathway_fi stId pattern (.success ⟨status, body⟩) =
        ⟨pathwayFiUrl stId pattern, [statusMsg status], .retNone⟩ ∧
      pathway_boolean_network stId pattern (.success ⟨status, body⟩) =
        ⟨pathwayBooleanNetworkUrl stId pattern, [statusMsg status], .retNone⟩ ∧
      pathway_factor_graph stId pattern (.success ⟨status, body⟩) =
        ⟨pathwayFactorGraphUrl stId pattern, [statusMsg status], .retNone⟩ ∧
      drug_data_source source (.success ⟨status, body⟩) =
        ⟨drugDataSourceUrl source, [statusMsg status], .retNone⟩ ∧
      drug_target_interactions ids source (.success ⟨status, body⟩) =
        ⟨drugTargetInteractionsUrl source, [statusMsg status], .retNone⟩ ∧
      drug_target_interaction_pe_in_diagram source pdId peId (.success ⟨status, body⟩) =
        ⟨drugPeInDiagramUrl source pdId peId, [statusMsg status], .retNone⟩ ∧
      drug_target_interaction_diagram source pdId (.success ⟨status, body⟩) =
        ⟨drugDiagramUrl source pdId, [statusMsg status], .retNone⟩ ∧
      pyContains (toString status) (statusMsg status) = true := by
  intro status hst text names members t2 body stId pattern ids source pdId peId
  have hne : (status == 200) = false := beq_eq_false_iff_ne.mpr (by omega)
  refine ⟨?_, ?_, ?_, ?_, ?_, ?_, ?_, ?_, ?_, ?_, ?_⟩
  · simp [ehld_stids, hne]
  · simp [sbgn_stids, hne]
  · simp [gene_mappings, hne]
  · simp [pathway_fi, requestJson, hne]
  · simp [pathway_boolean_network, requestJson, hne]
  · simp [pathway_factor_graph, requestJson, hne]
  · simp [drug_data_source, requestJson, hne]
  · simp [drug_target_interactions, requestJson, hne]
  · simp [drug_target_interaction_pe_in_diagram, requestJson, hne]
  · simp [drug_target_interaction_diagram, requestJson, hne]
  · unfold pyContains
    apply decide_eq_true
    simp only [statusMsg, String.data_append]
    exact (List.suffix_append _ _).isInfix

/-- C7 witness: the theorem at status 404 with concrete bodies. -/
theorem non_success_status_witness :
    ehld_stids (.success ⟨404, "R-HSA-1"⟩) = ⟨ehldUrl, [statusMsg 404], .retNone⟩ ∧
    pyContains (toString 404) (statusMsg 404) = true := by
  have h := non_success_status_prints_code_and_returns_none 404 (by omega)
    "R-HSA-1" [] [] (.connError "x") "b" "s" "p" "i" "src" "pd" "pe"
  exact ⟨h.1, h.2.2.2.2.2.2.2.2.2.2⟩

/-- C4: whenever both calls succeed against the same remote responses, the
list returned by `sbgn_stids` is disjoint from the list returned by
`ehld_stids` (the code subtracts the latter as a set). -/
theorem sbgn_disjoint_from_ehld :
    ∀ (env : SbgnEnv) (sb eh : List String),
      (sbgn_stids env).result = .ret sb →
      (ehld_stids env.ehldT).result = .ret eh →
      ∀ x ∈ sb, x ∉ eh := by
  intro env sb eh hsb heh x hx hmem
  obtain ⟨resp, ehlds, -, hin, hl⟩ := sbgn_stids_ret_inv env sb hsb
  rw [hin] at heh
  have heq : ehlds = eh := by
    simpa using heh
  subst hl
  have hx2 := (List.mem_filter.mp (List.mem_dedup.mp hx)).2
  simp only [Bool.not_eq_true'] at hx2
  rw [heq] at hx2
  have hcon : eh.contains x = true := List.elem_iff.mpr hmem
  rw [hcon] at hx2
  exact Bool.noConfusion hx2

/-- C4 witness: the theorem at a concrete pair of responses. -/
theorem sbgn_disjoint_from_ehld_witness :
    ("A" : String) ∉ ["R-HSA-1"] :=
  sbgn_disjoint_from_ehld ⟨.success ⟨200, ["A"]⟩, .success ⟨200, "R-HSA-1"⟩⟩
    ["A"] ["R-HSA-1"] (by decide) (by decide) "A" (by decide)

/-- C10: a successful `sbgn_stids` call returns a list without duplicates
(the code passes the member names through a set). -/
theorem sbgn_stids_result_nodup :
    ∀ (env : SbgnEnv) (l : List String),
      (sbgn_stids env).result = .ret l → l.Nodup := by
  intro env l h
  obtain ⟨resp, ehlds, -, -, hl⟩ := sbgn_stids_ret_inv env l h
  subst hl
  exact List.nodup_dedup _

/-- C10 witness: the theorem at a response whose member list repeats a
name. -/
theorem sbgn_stids_result_nodup_witness :
    List.Nodup ["A"] :=
  sbgn_stids_result_nodup ⟨.success ⟨200, ["A", "A"]⟩, .success ⟨200, ""⟩⟩
    ["A"] (by decide)

/-- C5: on a 200 response whose first archive member's lines each split into
at least two tab-separated fields, `gene_mappings` returns one record per
line in line order, with the name from field 0, the identifier from field 1
and the genes from all remaining fields, every field trimmed; a two-field
line yields a record with an empty gene list rather than an error. -/
theorem gene_mappings_one_record_per_line :
    ∀ (lines : List String) (rest : List (List String)),
      (∀ l ∈ lines, 2 ≤ (pySplitTab l).length) →
      (gene_mappings (.success ⟨200, lines :: rest⟩)).result
        = .ret (lines.map specRecord) ∧
      (∀ l ∈ lines, (pySplitTab l).length = 2 → (specRecord l).genes = []) := by
  intro lines rest h
  constructor
  · simp only [gene_mappings]
    rw [if_pos (by simp), buildRelations_ok_of_min_fields lines h]
  · intro l hl hlen
    simp only [specRecord]
    apply List.drop_eq_nil_of_le
    rw [List.length_map]
    omega

/-- C5 witness: the theorem at a member with a three-gene line and a
two-field line. -/
theorem gene_mappings_one_record_per_line_witness :
    (gene_mappings
        (.success ⟨200, [["pathA\tR-HSA-1\tG1\tG2\n", "pathB\tR-HSA-2\n"]]⟩)).result
      = .ret [⟨"pathA", "R-HSA-1", ["G1", "G2"]⟩, ⟨"pathB", "R-HSA-2", []⟩] ∧
    (specRecord "pathB\tR-HSA-2\n").genes = [] := by
  have h := gene_mappings_one_record_per_line
    ["pathA\tR-HSA-1\tG1\tG2\n", "pathB\tR-HSA-2\n"] [] (by decide)
  exact ⟨h.1.trans (by decide), h.2 "pathB\tR-HSA-2\n" (by decide) (by decide)⟩

/-- C6 (amended): every field of every record returned by a successful
`gene_mappings` call has been passed through `strip()`, hence has no leading
or trailing whitespace.  The original claim also asserted that `name` and
`stId` are non-empty, which the code does not guarantee. -/
theorem gene_mappings_fields_trimmed_amended :
    ∀ (t : Transport (List (List String))) (rs : List GeneMap),
      (gene_mappings t).result = .ret rs →
      ∀ r ∈ rs, isTrimmed r.name = true ∧ isTrimmed r.stId = true ∧
        ∀ g ∈ r.genes, isTrimmed g = true := by
  intro t rs h r hr
  cases t with
  | connError e => exact absurd h (by simp [gene_mappings])
  | success resp =>
    by_cases hs : (resp.status == 200) = true
    · simp only [gene_mappings, hs, if_true] at h
      cases hb : resp.body with
      | nil => rw [hb] at h; exact absurd h (by simp)
      | cons fm rest =>
        rw [hb] at h
        cases hbr : buildRelations (fm.map pySplitTab) with
        | ok rs2 =>
          have h2 : (match buildRelations (fm.map pySplitTab) with
              | Except.ok relations =>
                (⟨gmtUrl, [], .ret relations⟩ : Call (List GeneMap))
              | Except.error m => ⟨gmtUrl, [], .exn m⟩).result = .ret rs := h
          rw [hbr] at h2
          have h4 : rs2 = rs := by
            simpa using (show PyResult.ret rs2 = PyResult.ret rs from h2)
          subst h4
          exact buildRelations_ok_trimmed _ _ hbr r hr
        | error m =>
          have h2 : (match buildRelations (fm.map pySplitTab) with
              | Except.ok relations =>
                (⟨gmtUrl, [], .ret relations⟩ : Call (List GeneMap))
              | Except.error m2 => ⟨gmtUrl, [], .exn m2⟩).result = .ret rs := h
          rw [hbr] at h2
          exact absurd (show PyResult.exn m = PyResult.ret rs from h2) (by simp)
    · simp only [gene_mappings] at h
      rw [if_neg hs] at h
      exact absurd h (by simp)

/-- C6 counterexample: a line whose first field is empty after trimming shows
the non-emptiness part of the claim fails — the record is returned with an
empty `name`, not rejected. -/
theorem gene_mappings_empty_name_cex :
    (gene_mappings (.success ⟨200, [["\tR-HSA-9\tG\n"]]⟩)).result
      = .ret [{ name := "", stId := "R-HSA-9", genes := ["G"] }] ∧
    ({ name := "", stId := "R-HSA-9", genes := ["G"] } : GeneMap).name = "" :=
  ⟨by decide, rfl⟩

/-- C6 witness: the amended theorem at a concrete archive. -/
theorem gene_mappings_fields_trimmed_witness :
    isTrimmed "a" = true ∧ isTrimmed "b" = true ∧
      ∀ g ∈ (["c"] : List String), isTrimmed g = true :=
  gene_mappings_fields_trimmed_amended (.success ⟨200, [[" a\tb \tc\n"]]⟩)
    [⟨"a", "b", ["c"]⟩] (by decide) ⟨"a", "b", ["c"]⟩ (by decide)

/-- C9: `gene_mappings` returns a value only when every line of the first
archive member has at least two tab-separated fields, and a line containing
no tab character makes it raise `IndexError` (reading field 1) instead of
returning. -/
theorem gene_mappings_two_field_requirement :
    ∀ (lines : List String) (rest : List (List String)),
      ((∃ l ∈ lines, '\t' ∉ l.data) →
        (gene_mappings (.success ⟨200, lines :: rest⟩)).result = .exn indexErrorMsg) ∧
      (∀ rs, (gene_mappings (.success ⟨200, lines :: rest⟩)).result = .ret rs →
        ∀ l ∈ lines, 2 ≤ (pySplitTab l).length) := by
  intro lines rest
  constructor
  · rintro ⟨l, hl, hnt⟩
    have hshort : ∃ fields ∈ lines.map pySplitTab, fields.length < 2 := by
      refine ⟨pySplitTab l, List.mem_map.mpr ⟨l, hl, rfl⟩, ?_⟩
      rw [pySplitTab_no_tab l hnt]
      simp
    simp only [gene_mappings]
    rw [if_pos (by simp), buildRelations_error_of_short (lines.map pySplitTab) hshort]
  · intro rs h l hl
    simp only [gene_mappings] at h
    rw [if_pos (by simp)] at h
    cases hbr : buildRelations (lines.map pySplitTab) with
    | ok rs2 =>
      exact buildRelations_ok_length _ rs2 hbr (pySplitTab l)
        (List.mem_map.mpr ⟨l, hl, rfl⟩)
    | error m =>
      rw [hbr] at h
      exact absurd h (by simp)

/-- C9 witness: a member whose single line has no tab makes the call raise
`IndexError`. -/
theorem gene_mappings_two_field_requirement_witness :
    (gene_mappings (.success ⟨200, [["justone\n"]]⟩)).result = .exn indexErrorMsg :=
  (gene_mappings_two_field_requirement ["justone\n"] []).1
    ⟨"justone\n", by decide, by decide⟩

end Reactome
